import Mathlib

/-!
Verification of the configuration/state lifecycle and wallpaper-rotation
behaviour of `wallchanger.py`.  The Python source is shallowly embedded:
the module-level config load, `save_config`, `start_wallpaper_changer`
and `change_wallpaper` become pure Lean functions over an explicit
application state; filesystem and GUI effects become explicit inputs
(folder existence, directory listing, text-field contents) and outputs
(messages, applied wallpaper path, persisted document).
-/

namespace Wallchanger

/-- The in-memory settings document.  Mirrors the four keys of the JSON
`config` dict in `wallchanger.py` (`wallpaper_folder`, `change_interval`,
`run_at_startup`, `randomize_wallpapers`). -/
structure Config where
  wallpaper_folder : String
  change_interval : Int
  run_at_startup : Bool
  randomize_wallpapers : Bool
deriving Repr, DecidableEq

/-- The hard-coded `default_config` dict of the source: empty folder,
10-minute interval, no startup registration, no randomization. -/
def default_config : Config :=
  { wallpaper_folder := ""
  , change_interval := 10
  , run_at_startup := false
  , randomize_wallpapers := false }

/-- State of the persisted settings file (`config.json`).
`absent`: `os.path.exists(config_file)` is false.
`wellFormed c`: the file exists, reading it succeeds, and `json.load`
returns the settings document `c`.
`malformed`: the file exists and is readable but `json.load` raises
`json.JSONDecodeError`.
`unreadable`: the file exists but opening/decoding it raises an exception
that is not a `json.JSONDecodeError` (e.g. `PermissionError` on `open`,
or `UnicodeDecodeError` while reading a non-UTF-8 file). -/
inductive FileState where
  | absent
  | wellFormed (c : Config)
  | malformed
  | unreadable
deriving Repr, DecidableEq

/-- Result of the module-level load: either a settings document together
with the resulting on-disk file state, or a propagated exception. -/
inductive LoadOutcome where
  | ok (cfg : Config) (disk : FileState)
  | raised
deriving Repr, DecidableEq

/-- The module-level load-or-create block of `wallchanger.py` (lines
36-48): if the file does not exist, write `default_config` and use it;
otherwise `try` to parse it, and on `json.JSONDecodeError` reset the file
to `default_config`.  Exceptions other than `JSONDecodeError` are not
caught by the `except` clause and propagate. -/
def load : FileState → LoadOutcome
  | .absent => .ok default_config (.wellFormed default_config)
  | .wellFormed c => .ok c (.wellFormed c)
  | .malformed => .ok default_config (.wellFormed default_config)
  | .unreadable => .raised

/-- Python's `str.strip()` with the default whitespace set, on the
character sequence of a string. -/
def pyStrip (cs : List Char) : List Char :=
  ((cs.dropWhile Char.isWhitespace).reverse.dropWhile Char.isWhitespace).reverse

/-- Python's built-in `int()` applied to a string: strip surrounding
whitespace, allow one optional sign, then require a non-empty run of
decimal digits; anything else raises `ValueError`, modelled as `none`. -/
def pyInt (s : String) : Option Int :=
  let chars := pyStrip s.data
  let signed : Bool × List Char :=
    match chars with
    | '-' :: rest => (true, rest)
    | '+' :: rest => (false, rest)
    | _ => (false, chars)
  let digits := signed.2
  if digits.isEmpty || !(digits.all Char.isDigit) then
    none
  else
    let n : Nat := digits.foldl (fun acc d => acc * 10 + (d.toNat - 48)) 0
    some (if signed.1 then -(n : Int) else (n : Int))

/-- Python's `str.lower()` restricted to ASCII, as used on file names
before the extension test. -/
def pyLower (s : String) : String :=
  ⟨s.data.map Char.toLower⟩

/-- Python's `str.endswith(p)` on character sequences: the last
`len(p)` characters of `s` equal `p`. -/
def pyEndsWith (s p : List Char) : Bool :=
  decide (p.length ≤ s.length) && s.drop (s.length - p.length) == p

/-- The fixed tuple of accepted image extensions passed to `endswith`
in `change_wallpaper` (line 162). -/
def image_extensions : List String :=
  [".jpg", ".jpeg", ".png", ".bmp", ".gif"]

/-- The list-comprehension predicate of line 162:
`f.lower().endswith(('.jpg', '.jpeg', '.png', '.bmp', '.gif'))`. -/
def isImage (f : String) : Bool :=
  image_extensions.any (fun e => pyEndsWith (pyLower f).data e.data)

/-- The filtered candidate list built from a directory listing:
`[f for f in os.listdir(folder) if f.lower().endswith(...)]`. -/
def candidates (listing : List String) : List String :=
  listing.filter isImage

/-- Python's `random.choice(l)` where `k` stands for the value drawn by
`randrange(len(l))`; an arbitrary natural draw is reduced mod the length
so every `k` denotes a valid index of a non-empty list. -/
def pyChoice (l : List String) (k : Nat) : String :=
  l.getD (k % l.length) ""

/-- Windows `os.path.join(folder, name)` for a relative `name`. -/
def joinPath (d f : String) : String :=
  d ++ "\\" ++ f

/-- The full application state touched by the embedded operations: the
in-memory `config` dict, the persisted `config.json`, the set of active
repeating timer schedules (periods in milliseconds) of the app's single
`QTimer`, the currently applied wallpaper and the preview pixmap path. -/
structure AppState where
  config : Config
  disk : FileState
  timers : List Int
  wallpaper : Option String
  preview : Option String
deriving Repr, DecidableEq

/-- Snapshot of the filesystem view of the configured folder at the
moment `change_wallpaper` runs: the result of `os.path.exists(folder)`
and the listing `os.listdir(folder)` would return. -/
structure FolderView where
  folderExists : Bool
  listing : List String
deriving Repr, DecidableEq

/-- Observable effects of one `change_wallpaper` call: the console
message printed (if any), the wallpaper path passed to
`SystemParametersInfoW` (if any), and whether `os.listdir` was invoked. -/
structure RotateOutput where
  message : Option String
  applied : Option String
  listed : Bool
deriving Repr, DecidableEq

/-- The console message of line 176. -/
def notConfiguredMsg : String :=
  "Wallpaper folder is not set or does not exist."

/-- The selection expression of line 164:
`random.choice(images) if config.get("randomize_wallpapers", False) else images[0]`. -/
def selectImage (cfg : Config) (images : List String) (randIdx : Nat) : String :=
  if cfg.randomize_wallpapers then pyChoice images randIdx else images.headD ""

/-- `WallpaperChangerApp.change_wallpaper` (lines 159-176).  Reads
`wallpaper_folder` and `randomize_wallpapers` from the config; if the
folder is set and exists, lists it, filters to image files, selects one
(`random.choice` with draw `randIdx` when randomizing, else `images[0]`)
and applies it (preview pixmap and `SystemParametersInfoW`); otherwise
prints the not-configured message.  An empty filtered list falls through
the inner `if images:` with no further action. -/
def change_wallpaper (st : AppState) (fv : FolderView) (randIdx : Nat) :
    AppState × RotateOutput :=
  let folder := st.config.wallpaper_folder
  if folder ≠ "" && fv.folderExists then
    let images := candidates fv.listing
    if images.isEmpty then
      (st, { message := none, applied := none, listed := true })
    else
      let image_path := joinPath folder (selectImage st.config images randIdx)
      ({ st with wallpaper := some image_path, preview := some image_path },
       { message := none, applied := some image_path, listed := true })
  else
    (st, { message := some notConfiguredMsg, applied := none, listed := false })

/-- `WallpaperChangerApp.start_wallpaper_changer` (lines 153-157):
`self.timer.stop()` clears the app's only timer schedule, `timer.start`
installs one repeating schedule at `change_interval * 60 * 1000`
milliseconds, and `change_wallpaper` runs once synchronously. -/
def start_wallpaper_changer (st : AppState) (fv : FolderView) (randIdx : Nat) :
    AppState × RotateOutput :=
  let interval := st.config.change_interval * 60 * 1000
  let stopped := { st with timers := [] }
  let started := { stopped with timers := stopped.timers ++ [interval] }
  change_wallpaper started fv randIdx

/-- Result of `save_config`: the new state, whether the
`QMessageBox.critical` failure dialog was shown, and the output of the
rotation triggered through `start_wallpaper_changer` (absent when the
save failed before reaching it). -/
structure SaveResult where
  state : AppState
  errorShown : Bool
  rotated : Option RotateOutput
deriving Repr, DecidableEq

/-- `WallpaperChangerApp.save_config` (lines 141-151).  Inside the `try`:
the folder text is stored, then `int(self.interval_entry.text())` is
parsed — any integer (also zero or negative) succeeds, a non-integer
string raises `ValueError`; on success the checkboxes are stored, the
whole document is written to disk and `start_wallpaper_changer` runs.
On the exception the error dialog is shown and the disk is untouched
(the in-memory folder field was already assigned). -/
def save_config (st : AppState) (folderText intervalText : String)
    (runChecked randomizeChecked : Bool) (fv : FolderView) (randIdx : Nat) :
    SaveResult :=
  let c1 := { st.config with wallpaper_folder := folderText }
  match pyInt intervalText with
  | none =>
      { state := { st with config := c1 }, errorShown := true, rotated := none }
  | some n =>
      let c2 := { c1 with change_interval := n
                        , run_at_startup := runChecked
                        , randomize_wallpapers := randomizeChecked }
      let written := { st with config := c2, disk := FileState.wellFormed c2 }
      let (st', out) := start_wallpaper_changer written fv randIdx
      { state := st', errorShown := false, rotated := some out }

/-- Folding a sequence of `restart` calls (each with its own folder view
and random draw) over a state, used to speak about what a whole run of
restarts leaves behind. -/
def restartSeq (st : AppState) : List (FolderView × Nat) → AppState
  | [] => st
  | (fv, r) :: rest => restartSeq (start_wallpaper_changer st fv r).1 rest

/-- A sample application state: folder configured, sequential
selection.  Used to instantiate claim theorems on concrete inputs. -/
def stSeq : AppState :=
  { config := { wallpaper_folder := "C:\\wall", change_interval := 10
              , run_at_startup := false, randomize_wallpapers := false }
  , disk := FileState.wellFormed default_config
  , timers := []
  , wallpaper := none
  , preview := none }

/-- The sample state with randomized selection switched on. -/
def stRand : AppState :=
  { stSeq with config := { stSeq.config with randomize_wallpapers := true } }

/-- The application state right after a fresh default load. -/
def st0 : AppState :=
  { config := default_config
  , disk := FileState.wellFormed default_config
  , timers := []
  , wallpaper := none
  , preview := none }

/-- Folder view for the spec example listing `a.png, b.txt, c.JPG`. -/
def fvABC : FolderView :=
  { folderExists := true, listing := ["a.png", "b.txt", "c.JPG"] }

/-- Folder view of an existing folder holding no image files. -/
def fvTxt : FolderView :=
  { folderExists := true, listing := ["b.txt"] }

/-- Folder view of a nonexistent folder path. -/
def fvMissing : FolderView :=
  { folderExists := false, listing := ["x.png"] }

/-! Helper lemmas shared by several claim proofs. -/

/-- One rotation never touches the config, the persisted file or the
timer schedules, whichever branch is taken. -/
theorem rotate_state_frame (st : AppState) (fv : FolderView) (r : Nat) :
    ((change_wallpaper st fv r).1).config = st.config
    ∧ ((change_wallpaper st fv r).1).disk = st.disk
    ∧ ((change_wallpaper st fv r).1).timers = st.timers := by
  simp only [change_wallpaper]
  split
  · split
    · exact ⟨rfl, rfl, rfl⟩
    · exact ⟨rfl, rfl, rfl⟩
  · exact ⟨rfl, rfl, rfl⟩

/-- After one `start_wallpaper_changer` call, the single timer holds
exactly one repeating schedule, at the period computed from the
interval of the config the call started from. -/
theorem restart_timers (st : AppState) (fv : FolderView) (r : Nat) :
    ((start_wallpaper_changer st fv r).1).timers
      = [st.config.change_interval * 60 * 1000] := by
  unfold start_wallpaper_changer
  exact (rotate_state_frame _ fv r).2.2

/-- Any non-empty sequence of restart calls leaves exactly one active
repeating schedule behind. -/
theorem restartSeq_one_timer (st : AppState) (p : FolderView × Nat)
    (rest : List (FolderView × Nat)) :
    ((restartSeq st (p :: rest)).timers).length = 1 := by
  induction rest generalizing st p with
  | nil =>
      obtain ⟨fv, r⟩ := p
      simp [restartSeq, restart_timers]
  | cons q rest ih =>
      obtain ⟨fv, r⟩ := p
      rw [restartSeq]
      exact ih _ q

/-- A restart call never touches the persisted settings document. -/
theorem restart_disk (st : AppState) (fv : FolderView) (r : Nat) :
    ((start_wallpaper_changer st fv r).1).disk = st.disk := by
  unfold start_wallpaper_changer
  exact (rotate_state_frame _ fv r).2.1

/-! Claim theorems. -/

/-- C1 counterexample: saving with interval text `"0"` is not rejected:
no error dialog is shown and the persisted document now carries
`change_interval = 0`. -/
theorem C1_counterexample :
    (save_config st0 "" "0" false false fvMissing 0).errorShown = false
    ∧ (save_config st0 "" "0" false false fvMissing 0).state.disk
      = FileState.wellFormed
          { wallpaper_folder := "", change_interval := 0
          , run_at_startup := false, randomize_wallpapers := false } :=
  ⟨by decide, by decide⟩

/-- C1 amended: `save_config` rejects exactly the interval texts that do
not parse as an integer — then the error dialog is shown and the disk is
untouched; every parsed integer, including zero and negative values, is
accepted and written to disk together with the other fields. -/
theorem C1_save_accepts_any_integer (st : AppState)
    (folderText intervalText : String) (runChecked randomizeChecked : Bool)
    (fv : FolderView) (randIdx : Nat) :
    (save_config st folderText intervalText runChecked randomizeChecked fv randIdx).errorShown
      = (pyInt intervalText).isNone
    ∧ (save_config st folderText intervalText runChecked randomizeChecked fv randIdx).state.disk
      = (match pyInt intervalText with
         | none => st.disk
         | some n => FileState.wellFormed
             { wallpaper_folder := folderText, change_interval := n
             , run_at_startup := runChecked, randomize_wallpapers := randomizeChecked }) := by
  cases h : pyInt intervalText with
  | none => simp [save_config, h]
  | some n => simp [save_config, h, restart_disk]

/-- C2: a restart stops the previous schedule and installs exactly one
repeating trigger with period `change_interval * 60 * 1000`
milliseconds, performs one rotation synchronously on the rescheduled
state, and any non-empty sequence of restarts leaves exactly one (hence
at most one) active trigger. -/
theorem C2_restart_replaces_schedule (st : AppState) (fv : FolderView)
    (randIdx : Nat) (rest : List (FolderView × Nat)) :
    ((start_wallpaper_changer st fv randIdx).1).timers
      = [st.config.change_interval * 60 * 1000]
    ∧ (start_wallpaper_changer st fv randIdx).2
      = (change_wallpaper
          { st with timers := [st.config.change_interval * 60 * 1000] } fv randIdx).2
    ∧ ((restartSeq st ((fv, randIdx) :: rest)).timers).length = 1 :=
  ⟨restart_timers st fv randIdx, rfl, restartSeq_one_timer st (fv, randIdx) rest⟩

/-- C5: rotation candidates are exactly the listing entries whose
lower-cased name ends with one of `.jpg .jpeg .png .bmp .gif`; on the
example listing `a.png, b.txt, c.JPG` the candidate list is exactly
`a.png, c.JPG`. -/
theorem C5_candidate_filter :
    candidates ["a.png", "b.txt", "c.JPG"] = ["a.png", "c.JPG"]
    ∧ (∀ (l : List String) (f : String),
        f ∈ candidates l ↔ f ∈ l ∧ isImage f = true)
    ∧ (∀ f : String,
        isImage f = image_extensions.any (fun e => pyEndsWith (pyLower f).data e.data)) := by
  refine ⟨by decide, ?_, fun f => rfl⟩
  intro l f
  simp [candidates, List.mem_filter]

/-- C3: loading a missing settings file writes the hard-coded default
document and returns it, and loading a malformed (JSON-undecodable)
file resets the disk to the same default and returns it, so the
persisted document ends up as the fully written default, never
partially parsed. -/
theorem C3_load_resets_to_default :
    load FileState.absent
      = LoadOutcome.ok default_config (FileState.wellFormed default_config)
    ∧ load FileState.malformed
      = LoadOutcome.ok default_config (FileState.wellFormed default_config) :=
  ⟨rfl, rfl⟩

/-- C4 counterexample: when the settings file exists but reading it
raises an exception other than `json.JSONDecodeError` (e.g. a
permission or Unicode-decoding error), the module-level load
propagates the exception instead of returning a settings document. -/
theorem C4_counterexample :
    load FileState.unreadable = LoadOutcome.raised :=
  rfl

/-- C4 amended: the load returns a settings document whenever the file
is absent, well-formed, or fails JSON decoding; only a read failure
outside `json.JSONDecodeError` escapes the boundary. -/
theorem C4_load_total_except_unreadable (fs : FileState)
    (h : fs ≠ FileState.unreadable) :
    ∃ cfg disk, load fs = LoadOutcome.ok cfg disk := by
  cases fs with
  | absent => exact ⟨_, _, rfl⟩
  | wellFormed c => exact ⟨_, _, rfl⟩
  | malformed => exact ⟨_, _, rfl⟩
  | unreadable => exact absurd rfl h

/-- C4 witness: the malformed-file case satisfies the amended claim. -/
theorem C4_witness :
    FileState.malformed ≠ FileState.unreadable
    ∧ ∃ cfg disk, load FileState.malformed = LoadOutcome.ok cfg disk :=
  ⟨by decide, C4_load_total_except_unreadable FileState.malformed (by decide)⟩

/-- C6: with randomization off, rotation is a function of the listing
alone — two rotations over the same unchanged listing (whatever values
the random draws would have had) apply the same entry, namely the first
entry of the filtered candidate list in directory listing order. -/
theorem C6_sequential_deterministic (st : AppState) (fv : FolderView) (r1 r2 : Nat)
    (hrand : st.config.randomize_wallpapers = false)
    (hfold : st.config.wallpaper_folder ≠ "")
    (hex : fv.folderExists = true)
    (hne : candidates fv.listing ≠ []) :
    (change_wallpaper st fv r1).2.applied = (change_wallpaper st fv r2).2.applied
    ∧ (change_wallpaper st fv r1).2.applied
      = some (joinPath st.config.wallpaper_folder ((candidates fv.listing).headD "")) := by
  have happ : ∀ r : Nat, (change_wallpaper st fv r).2.applied
      = some (joinPath st.config.wallpaper_folder ((candidates fv.listing).headD "")) := by
    intro r
    simp [change_wallpaper, selectImage, hrand, hfold, hex, hne]
  exact ⟨(happ r1).trans (happ r2).symm, happ r1⟩

/-- C6 witness: on the example folder, the rotations with draws 0 and 5
both apply the first candidate `a.png`. -/
theorem C6_witness :
    (change_wallpaper stSeq fvABC 0).2.applied = (change_wallpaper stSeq fvABC 5).2.applied
    ∧ (change_wallpaper stSeq fvABC 0).2.applied
      = some (joinPath stSeq.config.wallpaper_folder ((candidates fvABC.listing).headD "")) :=
  C6_sequential_deterministic stSeq fvABC 0 5 rfl (by decide) rfl (by decide)

/-- C7: with randomization on, the draw `k` of `random.choice` selects
the `k`-th filtered candidate, so the applied entry is always a member
of the candidate list, every candidate is reached by some draw (nonzero
probability under a uniform draw), and — the listing entries being
distinct — each candidate is reached by exactly one of the
`(candidates fv.listing).length` equiprobable draws: the selection is
uniform over the candidate list. -/
theorem C7_random_uniform (st : AppState) (fv : FolderView) (k : Nat)
    (hrand : st.config.randomize_wallpapers = true)
    (hfold : st.config.wallpaper_folder ≠ "")
    (hex : fv.folderExists = true)
    (hk : k < (candidates fv.listing).length) :
    (change_wallpaper st fv k).2.applied
      = some (joinPath st.config.wallpaper_folder ((candidates fv.listing).getD k ""))
    ∧ (candidates fv.listing).getD k "" ∈ candidates fv.listing
    ∧ (∀ x ∈ candidates fv.listing, ∃ i < (candidates fv.listing).length,
        (change_wallpaper st fv i).2.applied
          = some (joinPath st.config.wallpaper_folder x))
    ∧ ((candidates fv.listing).Nodup → ∀ x ∈ candidates fv.listing,
        ((Finset.range (candidates fv.listing).length).filter
          (fun i => (candidates fv.listing).getD i "" = x)).card = 1) := by
  have hne : candidates fv.listing ≠ [] := by
    intro h
    rw [h] at hk
    exact Nat.not_lt_zero k hk
  have happ : ∀ i : Nat, i < (candidates fv.listing).length →
      (change_wallpaper st fv i).2.applied
        = some (joinPath st.config.wallpaper_folder ((candidates fv.listing).getD i "")) := by
    intro i hi
    have hmod : i % (candidates fv.listing).length = i := Nat.mod_eq_of_lt hi
    simp [change_wallpaper, selectImage, pyChoice, hrand, hfold, hex, hne, hmod]
  refine ⟨happ k hk, ?_, ?_, ?_⟩
  · rw [List.getD_eq_getElem _ _ hk]
    exact List.getElem_mem hk
  · intro x hx
    obtain ⟨i, hi, hix⟩ := List.mem_iff_getElem.mp hx
    refine ⟨i, hi, ?_⟩
    rw [happ i hi, List.getD_eq_getElem _ _ hi, hix]
  · intro hnd x hx
    obtain ⟨j, hj, hjx⟩ := List.mem_iff_getElem.mp hx
    have : (Finset.range (candidates fv.listing).length).filter
        (fun i => (candidates fv.listing).getD i "" = x) = {j} := by
      ext i
      simp only [Finset.mem_filter, Finset.mem_range, Finset.mem_singleton]
      constructor
      · rintro ⟨hi, hix⟩
        rw [List.getD_eq_getElem _ _ hi, ← hjx] at hix
        exact (hnd.getElem_inj_iff).mp hix
      · rintro rfl
        exact ⟨hj, by rw [List.getD_eq_getElem _ _ hj, hjx]⟩
    rw [this, Finset.card_singleton]

/-- C7 witness: on the example folder with randomization on, draw 1
applies the second candidate `c.JPG`, every candidate is reachable, and
each candidate is hit by exactly one of the two draws. -/
theorem C7_witness :
    (change_wallpaper stRand fvABC 1).2.applied
      = some (joinPath stRand.config.wallpaper_folder ((candidates fvABC.listing).getD 1 ""))
    ∧ (candidates fvABC.listing).getD 1 "" ∈ candidates fvABC.listing
    ∧ (∀ x ∈ candidates fvABC.listing, ∃ i < (candidates fvABC.listing).length,
        (change_wallpaper stRand fvABC i).2.applied
          = some (joinPath stRand.config.wallpaper_folder x))
    ∧ ((candidates fvABC.listing).Nodup → ∀ x ∈ candidates fvABC.listing,
        ((Finset.range (candidates fvABC.listing).length).filter
          (fun i => (candidates fvABC.listing).getD i "" = x)).card = 1) :=
  C7_random_uniform stRand fvABC 1 rfl (by decide) rfl (by decide)

/-- C8: when the configured folder is the empty string or does not
exist, rotation prints the not-configured message, applies nothing,
performs no directory listing, leaves the state untouched, and its
result does not depend on the listing at all. -/
theorem C8_not_configured (st : AppState) (fv : FolderView) (r : Nat)
    (h : st.config.wallpaper_folder = "" ∨ fv.folderExists = false) :
    change_wallpaper st fv r
      = (st, { message := some notConfiguredMsg, applied := none, listed := false })
    ∧ ∀ l : List String,
        change_wallpaper st { fv with listing := l } r = change_wallpaper st fv r := by
  have hres : ∀ fv' : FolderView, fv'.folderExists = fv.folderExists →
      change_wallpaper st fv' r
        = (st, { message := some notConfiguredMsg, applied := none, listed := false }) := by
    intro fv' hfe
    rcases h with hfold | hex
    · simp [change_wallpaper, hfold]
    · simp [change_wallpaper, hfe, hex]
  refine ⟨hres fv rfl, fun l => ?_⟩
  rw [hres { fv with listing := l } rfl, hres fv rfl]

/-- C8 witness: rotation against a nonexistent folder path from the
configured sample state reports the message and does nothing else. -/
theorem C8_witness :
    change_wallpaper stSeq fvMissing 0
      = (stSeq, { message := some notConfiguredMsg, applied := none, listed := false })
    ∧ ∀ l : List String,
        change_wallpaper stSeq { fvMissing with listing := l } 0
          = change_wallpaper stSeq fvMissing 0 :=
  C8_not_configured stSeq fvMissing 0 (Or.inr rfl)

/-- C9 counterexample: on an existing folder whose listing holds no
image file, rotation emits no message at all — in particular no
"no images found" report — and applies nothing. -/
theorem C9_counterexample :
    (change_wallpaper stSeq fvTxt 0).2
      = { message := none, applied := none, listed := true } := by
  decide

/-- C9 amended: when the folder exists and the filtered candidate list
is empty, rotation does nothing further — no entry is selected, no
wallpaper is applied, the state is untouched — but it is silent: no
"no images found" condition is reported. -/
theorem C9_no_images_silent (st : AppState) (fv : FolderView) (r : Nat)
    (hfold : st.config.wallpaper_folder ≠ "")
    (hex : fv.folderExists = true)
    (hempty : candidates fv.listing = []) :
    change_wallpaper st fv r
      = (st, { message := none, applied := none, listed := true }) := by
  simp [change_wallpaper, hfold, hex, hempty]

/-- C9 witness: the amended claim at the sample state and the
image-free folder view. -/
theorem C9_witness :
    change_wallpaper stSeq fvTxt 1
      = (stSeq, { message := none, applied := none, listed := true }) :=
  C9_no_images_silent stSeq fvTxt 1 (by decide) rfl (by decide)

/-- C10: a rotation call leaves the settings object and the persisted
settings document unchanged, whichever branch it takes. -/
theorem C10_rotate_preserves_settings (st : AppState) (fv : FolderView) (r : Nat) :
    ((change_wallpaper st fv r).1).config = st.config
    ∧ ((change_wallpaper st fv r).1).disk = st.disk :=
  ⟨(rotate_state_frame st fv r).1, (rotate_state_frame st fv r).2.1⟩

end Wallchanger
